import Mathlib

/-!
Shallow embedding of the job-lifecycle and story-assembly backend
(src/backend): the ORM records (models/job_model.py, models/story_model.py),
the route handlers (routers/story_router.py, routers/job_router.py) and the
background generation worker.  The persistent store is a record of lists of
rows; SQLAlchemy queries become list searches, and each `db.commit()` is an
explicit replacement of rows in the store.  The story generator
(core/story_generator.py) is not part of this snapshot; the worker is
parametric in it.
-/

namespace Adventure

/-- One entry of a node's JSON `options` list (story_model.py: `options =
Column(JSON, default=list)`); a labeled choice with an optional destination. -/
structure StoryOption where
  text : String
  node_id : Option Nat
deriving DecidableEq

/-- Row of `story_jobs` (models/job_model.py, class StoryJob).  Timestamps are
abstract ticks (`Nat`). -/
structure StoryJob where
  job_id : String
  session_id : String
  theme : String
  status : String
  story_id : Option Nat
  error : Option String
  created_at : Nat
  completed_at : Option Nat
deriving DecidableEq

/-- Row of `stories` (models/story_model.py, class Story). -/
structure Story where
  id : Nat
  title : String
  session_id : String
  created_at : Nat
deriving DecidableEq

/-- Row of `story_nodes` (models/story_model.py, class StoryNode). -/
structure StoryNode where
  id : Nat
  story_id : Nat
  content : String
  is_root : Bool
  is_ending : Bool
  is_winning_ending : Bool
  options : List StoryOption
deriving DecidableEq

/-- The persistent store: the three tables, each a list of rows in insertion
(query) order. -/
structure DB where
  jobs : List StoryJob
  stories : List Story
  story_nodes : List StoryNode
deriving DecidableEq

/-- How a handler terminates abnormally: a raised `HTTPException(status_code,
detail)`, or an unhandled Python exception (`AttributeError` from an attribute
access on `None`, `KeyError` from a missing dict key). -/
inductive PyError where
  | http : Nat → String → PyError
  | attributeError : String → PyError
  | keyError : Nat → PyError
deriving DecidableEq

/-- View object for one node (schemas/story_schema.py,
CompleteStoryNodeResponse). -/
structure CompleteStoryNodeResponse where
  id : Nat
  content : String
  is_ending : Bool
  is_winning_ending : Bool
  options : List StoryOption
deriving DecidableEq

/-- Assembled story (schemas/story_schema.py, CompleteStoryResponse);
`all_nodes` is the Python dict `node_dict` as an association list in dict
order. -/
structure CompleteStoryResponse where
  id : Nat
  title : String
  session_id : String
  created_at : Nat
  root_node : CompleteStoryNodeResponse
  all_nodes : List (Nat × CompleteStoryNodeResponse)
deriving DecidableEq

/-- Python dict assignment `d[k] = v`: overwrite in place if `k` is present,
else append. -/
def dictInsert (d : List (Nat × CompleteStoryNodeResponse)) (k : Nat)
    (v : CompleteStoryNodeResponse) : List (Nat × CompleteStoryNodeResponse) :=
  if d.any (fun p => p.1 == k) then
    d.map (fun p => if p.1 == k then (k, v) else p)
  else
    d ++ [(k, v)]

/-- Python dict lookup `d[k]` as an option (the caller turns `none` into
`KeyError`). -/
def dictGet (d : List (Nat × CompleteStoryNodeResponse)) (k : Nat) :
    Option CompleteStoryNodeResponse :=
  (d.find? (fun p => p.1 == k)).map (fun p => p.2)

/-- `db.query(StoryJob).filter(StoryJob.job_id == job_id).first()`. -/
def findJob (db : DB) (jid : String) : Option StoryJob :=
  db.jobs.find? (fun j => j.job_id == jid)

/-- `db.query(Story).filter(Story.id == story_id).first()`. -/
def findStory (db : DB) (sid : Nat) : Option Story :=
  db.stories.find? (fun s => s.id == sid)

/-- `db.query(StoryNode).filter(StoryNode.story_id == story.id).all()`. -/
def storyNodes (db : DB) (story : Story) : List StoryNode :=
  db.story_nodes.filter (fun n => n.story_id == story.id)

/-- Committing a mutation of the ORM job object: every row whose `job_id`
matches is replaced by the mutated object. -/
def commitJob (db : DB) (jid : String) (j : StoryJob) : DB :=
  { db with jobs := db.jobs.map (fun x => if x.job_id == jid then j else x) }

/-- `create_story` (routers/story_router.py lines 33-61): build a StoryJob with
the freshly minted `job_id`, status `"pending"`, add and commit, return the job.
The uuid and the server-default creation timestamp are inputs; the cookie write
and the background-task scheduling are boundary effects outside the store. -/
def create_story (theme session_id job_id : String) (created_at : Nat)
    (db : DB) : StoryJob × DB :=
  let job : StoryJob :=
    { job_id := job_id
      session_id := session_id
      theme := theme
      status := "pending"
      story_id := none
      error := none
      created_at := created_at
      completed_at := none }
  (job, { db with jobs := db.jobs ++ [job] })

/-- `get_job_status` (routers/job_router.py lines 20-27): look the job up by
`job_id`; 404 if absent, otherwise return the row as-is.  The function takes
the store and returns it untouched — it is a pure read. -/
def get_job_status (jid : String) (db : DB) : Except PyError StoryJob :=
  match findJob db jid with
  | none => .error (.http 404 "Job not found")
  | some job => .ok job

/-- `generate_story_task` (routers/story_router.py lines 67-87).  The stubbed
`StoryGenerator.generate_story(db, session_id, theme)` is the parameter `gen`:
on success it yields the new Story and the store with the story tree added; a
raised exception is `.error msg`, leaving the store as it was.  `now` is
`datetime.now()`.  Returns the final store together with the list of states of
this job committed after the initial lookup, in commit order. -/
def generate_story_task
    (gen : DB → String → String → Except String (Story × DB))
    (now : Nat) (job_id session_id theme : String) (db : DB) :
    DB × List StoryJob :=
  match findJob db job_id with
  | none => (db, [])
  | some job =>
    let job1 := { job with status := "processing" }
    let db1 := commitJob db job_id job1
    match gen db1 session_id theme with
    | .ok (story, db2) =>
      let job2 := { job1 with
        story_id := some story.id
        status := "completed"
        completed_at := some now }
      (commitJob db2 job_id job2, [job1, job2])
    | .error e =>
      let job2 := { job1 with
        status := "Failed"
        completed_at := some now
        error := some e }
      (commitJob db1 job_id job2, [job1, job2])

/-- The view built for one node inside `build_complete_story_tree`
(routers/story_router.py lines 110-117). -/
def toNodeResponse (n : StoryNode) : CompleteStoryNodeResponse :=
  { id := n.id
    content := n.content
    is_ending := n.is_ending
    is_winning_ending := n.is_winning_ending
    options := n.options }

/-- The `node_dict` loop of `build_complete_story_tree` (routers/story_router.py
lines 109-117). -/
def buildNodeDict (nodes : List StoryNode) :
    List (Nat × CompleteStoryNodeResponse) :=
  nodes.foldl (fun d n => dictInsert d n.id (toNodeResponse n)) []

/-- `build_complete_story_tree` (routers/story_router.py lines 106-131): load
the story's nodes, build `node_dict`, take the first node with `is_root` (the
`next(..., None)` generator), 500 if there is none, otherwise assemble the
response around `node_dict[root_node.id]`. -/
def build_complete_story_tree (db : DB) (story : Story) :
    Except PyError CompleteStoryResponse :=
  let nodes := storyNodes db story
  let node_dict := buildNodeDict nodes
  match nodes.find? (fun n => n.is_root) with
  | none => .error (.http 500 "Story root node not found")
  | some root_node =>
    match dictGet node_dict root_node.id with
    | none => .error (.keyError root_node.id)
    | some root_view =>
      .ok { id := story.id
            title := story.title
            session_id := story.session_id
            created_at := story.created_at
            root_node := root_view
            all_nodes := node_dict }

/-- `get_complete_story` (routers/story_router.py lines 90-101).  The source
guards with `if not Story:` — `Story` is the model *class*, a truthy object, so
the condition is constantly false and the 404 branch is dead; when no story
matches, `build_complete_story_tree` receives `None` and the attribute access
`story.id` raises `AttributeError`. -/
def get_complete_story (story_id : Nat) (db : DB) :
    Except PyError CompleteStoryResponse :=
  let story := findStory db story_id
  if (false : Bool) then
    .error (.http 404 "Story not found")
  else
    match story with
    | none => .error (.attributeError "NoneType object has no attribute id")
    | some s => build_complete_story_tree db s

/-! Concrete fixtures used to exercise the handlers. -/

/-- A freshly submitted job, as `create_story` persists it. -/
def jobA : StoryJob :=
  { job_id := "j1"
    session_id := "s1"
    theme := "space pirates"
    status := "pending"
    story_id := none
    error := none
    created_at := 0
    completed_at := none }

/-- A store holding exactly the pending job `jobA`. -/
def db0 : DB := { jobs := [jobA], stories := [], story_nodes := [] }

/-- A generator whose generation step raises (`StoryGenerator.generate_story`
throwing an exception with message "boom"). -/
def failGen : DB → String → String → Except String (Story × DB) :=
  fun _ _ _ => .error "boom"

/-- The empty store. -/
def emptyDB : DB := { jobs := [], stories := [], story_nodes := [] }

/-! Theorems settling the claims. -/

/-- C1.  With no Story of id 1 in the store, `get_complete_story` does not fail
with a 404 `NotFound`: the source's guard `if not Story:` tests the model class
(always truthy), so the lookup miss falls through and the attribute access
`story.id` on `None` raises `AttributeError` — an unhandled server error. -/
theorem get_complete_story_missing_raises_attribute_error :
    get_complete_story 1 emptyDB =
      .error (.attributeError "NoneType object has no attribute id") := by
  rfl

/-- C2.  Running the worker on the pending job `jobA` with a generation step
that raises "boom" commits a terminal job whose status is the string
`"Failed"` — not the enum value `"failed"` — though error and completion
timestamp are set and story_id stays null, and the store is persisted. -/
theorem generate_story_task_failure_commit :
    generate_story_task failGen 5 "j1" "s1" "space pirates" db0 =
      ({ jobs := [{ jobA with
            status := "Failed", error := some "boom", completed_at := some 5 }]
         stories := []
         story_nodes := [] },
       [{ jobA with status := "processing" },
        { jobA with
            status := "Failed", error := some "boom", completed_at := some 5 }]) := by
  decide

/-- C3.  The persisted store after a failing generation holds a job with
`error = some "boom"` while its status is the string `"Failed"`: an error
message is set in a state whose status is not the enum value `"failed"`, so
"error is set iff status is `failed`" does not hold of the committed state. -/
theorem committed_failed_job_breaks_error_iff :
    ((generate_story_task failGen 5 "j1" "s1" "space pirates" db0).1.jobs.map
      (fun j => (j.status, j.error, j.story_id))) =
      [("Failed", some "boom", none)] := by
  decide

/-- C4.  `create_story` builds a job carrying the minted identifier with status
`"pending"` and null story_id, error and completion timestamp, appends it to
the job table (persists it) and returns it; the other tables are untouched. -/
theorem create_story_pending (theme sid jid : String) (t : Nat) (db : DB) :
    let r := create_story theme sid jid t db
    r.1.job_id = jid ∧ r.1.status = "pending" ∧ r.1.story_id = none ∧
      r.1.completed_at = none ∧ r.1.error = none ∧
      r.2.jobs = db.jobs ++ [r.1] ∧ r.1 ∈ r.2.jobs ∧
      r.2.stories = db.stories ∧ r.2.story_nodes = db.story_nodes := by
  refine ⟨rfl, rfl, rfl, rfl, rfl, rfl, ?_, rfl, rfl⟩
  simp [create_story]

/-- C5.  `get_job_status` returns 404 `NotFound` exactly when no job carries the
requested identifier, and otherwise returns the stored record unchanged; being
a pure function of the store, it mutates nothing. -/
theorem get_job_status_spec (jid : String) (db : DB) :
    (findJob db jid = none →
      get_job_status jid db = .error (.http 404 "Job not found")) ∧
    (∀ j, findJob db jid = some j → get_job_status jid db = .ok j) := by
  constructor
  · intro h
    simp [get_job_status, h]
  · intro j h
    simp [get_job_status, h]

/-- Witness for C5: polling an identifier that was never created yields 404. -/
theorem get_job_status_spec_witness :
    findJob emptyDB "nope" = none ∧
      get_job_status "nope" emptyDB = .error (.http 404 "Job not found") :=
  ⟨by decide, (get_job_status_spec "nope" emptyDB).1 (by decide)⟩

/-- C8.  The worker's committed writes for a job are strictly ordered: first
the `processing` state (before generation runs), then exactly one terminal
state.  On the failing input, that terminal committed status is the string
`"Failed"`, which is neither `"completed"` nor the enum value `"failed"`. -/
theorem commit_trace_on_failure :
    ((generate_story_task failGen 5 "j1" "s1" "space pirates" db0).2.map
      (fun j => j.status)) = ["processing", "Failed"] := by
  decide

/-- C9.  When no stored job matches the identifier, the worker returns normally
with the store exactly as it was and no commits made. -/
theorem generate_story_task_missing_job
    (gen : DB → String → String → Except String (Story × DB))
    (now : Nat) (jid sid theme : String) (db : DB)
    (h : findJob db jid = none) :
    generate_story_task gen now jid sid theme db = (db, []) := by
  simp [generate_story_task, h]

/-- Witness for C9: the worker invoked on the empty store leaves it unchanged. -/
theorem generate_story_task_missing_job_witness :
    findJob emptyDB "j1" = none ∧
      generate_story_task failGen 5 "j1" "s1" "space pirates" emptyDB =
        (emptyDB, []) :=
  ⟨by decide,
   generate_story_task_missing_job failGen 5 "j1" "s1" "space pirates" emptyDB
     (by decide)⟩

/-! Lemmas about the `node_dict` construction, shared by the assembly
theorems. -/

/-- Folding `dictInsert` over nodes whose ids are pairwise distinct and fresh
for the accumulator just appends one entry per node. -/
theorem foldl_dictInsert_eq (nodes : List StoryNode)
    (d : List (Nat × CompleteStoryNodeResponse))
    (hfresh : ∀ n ∈ nodes, ∀ p ∈ d, p.1 ≠ n.id)
    (hnodup : (nodes.map (fun n => n.id)).Nodup) :
    nodes.foldl (fun d n => dictInsert d n.id (toNodeResponse n)) d =
      d ++ nodes.map (fun n => (n.id, toNodeResponse n)) := by
  induction nodes generalizing d with
  | nil => simp
  | cons a l ih =>
    have hnot : d.any (fun p => p.1 == a.id) = false := by
      simp only [List.any_eq_false]
      intro p hp
      simpa using hfresh a (by simp) p hp
    have hins : dictInsert d a.id (toNodeResponse a) =
        d ++ [(a.id, toNodeResponse a)] := by
      simp [dictInsert, hnot]
    have hcons : (∀ x ∈ l, ¬ x.id = a.id) ∧ (l.map (fun n => n.id)).Nodup := by
      simpa using hnodup
    simp only [List.foldl_cons, hins]
    rw [ih (d ++ [(a.id, toNodeResponse a)])]
    · simp
    · intro n hn p hp
      rcases List.mem_append.mp hp with h1 | h2
      · exact hfresh n (by simp [hn]) p h1
      · have hp2 : p = (a.id, toNodeResponse a) := by simpa using h2
        subst hp2
        intro hcontra
        exact hcons.1 n hn hcontra.symm
    · exact hcons.2

/-- With pairwise-distinct node ids, `node_dict` is one entry per node, in
query order. -/
theorem buildNodeDict_eq (nodes : List StoryNode)
    (hnodup : (nodes.map (fun n => n.id)).Nodup) :
    buildNodeDict nodes = nodes.map (fun n => (n.id, toNodeResponse n)) := by
  simpa using foldl_dictInsert_eq nodes [] (by simp) hnodup

/-- Looking a member node's id up in the one-entry-per-node dict returns that
node's view. -/
theorem dictGet_map_of_mem (nodes : List StoryNode) (r : StoryNode)
    (hmem : r ∈ nodes) (hnodup : (nodes.map (fun n => n.id)).Nodup) :
    dictGet (nodes.map (fun n => (n.id, toNodeResponse n))) r.id =
      some (toNodeResponse r) := by
  induction nodes with
  | nil => cases hmem
  | cons a l ih =>
    have hcons : (∀ x ∈ l, ¬ x.id = a.id) ∧ (l.map (fun n => n.id)).Nodup := by
      simpa using hnodup
    rcases List.mem_cons.mp hmem with h1 | h2
    · subst h1
      simp [dictGet]
    · have hne : (a.id == r.id) = false := by
        simp only [beq_eq_false_iff_ne, ne_eq]
        intro hcontra
        exact hcons.1 r h2 hcontra.symm
      have := ih h2 hcons.2
      simpa [dictGet, List.find?_cons, hne] using this

/-- Success characterization of `build_complete_story_tree`: when the node ids
are pairwise distinct and some node is root-flagged, assembly returns the
story's metadata, the full per-node mapping, and the first root's view. -/
theorem build_tree_ok (db : DB) (story : Story)
    (hnodup : ((storyNodes db story).map (fun n => n.id)).Nodup)
    (r : StoryNode)
    (hfind : (storyNodes db story).find? (fun n => n.is_root) = some r) :
    build_complete_story_tree db story = .ok
      { id := story.id
        title := story.title
        session_id := story.session_id
        created_at := story.created_at
        root_node := toNodeResponse r
        all_nodes := (storyNodes db story).map (fun n => (n.id, toNodeResponse n)) } := by
  have hmem : r ∈ storyNodes db story := List.mem_of_find?_eq_some hfind
  have hdict := buildNodeDict_eq (storyNodes db story) hnodup
  have hget := dictGet_map_of_mem (storyNodes db story) r hmem hnodup
  simp only [build_complete_story_tree, hdict, hfind, hget]

/-! Fixtures for the assembly theorems. -/

/-- A persisted story. -/
def storyA : Story := { id := 7, title := "voyage", session_id := "s1", created_at := 3 }

/-- An ending node of `storyA`, not root-flagged. -/
def nodeEnd : StoryNode :=
  { id := 1, story_id := 7, content := "the end", is_root := false,
    is_ending := true, is_winning_ending := false, options := [] }

/-- The root node of `storyA`. -/
def nodeRoot : StoryNode :=
  { id := 2, story_id := 7, content := "you set sail", is_root := true,
    is_ending := false, is_winning_ending := false,
    options := [{ text := "go ashore", node_id := some 1 }] }

/-- A second root-flagged node of `storyA`, violating root uniqueness. -/
def nodeRoot2 : StoryNode :=
  { id := 3, story_id := 7, content := "another beginning", is_root := true,
    is_ending := false, is_winning_ending := false, options := [] }

/-- `storyA` persisted with no root-flagged node. -/
def dbNoRoot : DB := { jobs := [], stories := [storyA], story_nodes := [nodeEnd] }

/-- `storyA` persisted with exactly one root-flagged node. -/
def dbOneRoot : DB :=
  { jobs := [], stories := [storyA], story_nodes := [nodeRoot, nodeEnd] }

/-- `storyA` persisted with two root-flagged nodes. -/
def dbTwoRoots : DB :=
  { jobs := [], stories := [storyA], story_nodes := [nodeRoot, nodeRoot2, nodeEnd] }

/-- C6.  When none of a story's persisted nodes is root-flagged, assembly fails
with the 500 "Story root node not found" error instead of returning a tree. -/
theorem assemble_no_root_internal_inconsistency (db : DB) (story : Story)
    (h : ∀ n ∈ storyNodes db story, n.is_root = false) :
    build_complete_story_tree db story =
      .error (.http 500 "Story root node not found") := by
  have hfind : (storyNodes db story).find? (fun n => n.is_root) = none := by
    apply List.find?_eq_none.mpr
    intro n hn
    simp [h n hn]
  simp only [build_complete_story_tree, hfind]

/-- Witness for C6: assembling the rootless `storyA` yields the 500 error. -/
theorem assemble_no_root_witness :
    (∀ n ∈ storyNodes dbNoRoot storyA, n.is_root = false) ∧
      build_complete_story_tree dbNoRoot storyA =
        .error (.http 500 "Story root node not found") :=
  ⟨by decide, assemble_no_root_internal_inconsistency dbNoRoot storyA (by decide)⟩

/-- C7.  For a story with distinct node ids and at least one root-flagged node,
assembly succeeds; `all_nodes` has exactly one entry per persisted node, each
view preserving content, ending flags and options (it is `toNodeResponse`);
the response carries the story's metadata; the returned root view is the
mapping's entry at the first root's id; and whenever the root-flagged node is
unique, the root view is the mapping's entry for that node. -/
theorem assemble_with_root (db : DB) (story : Story)
    (hnodup : ((storyNodes db story).map (fun n => n.id)).Nodup)
    (hroot : ∃ n ∈ storyNodes db story, n.is_root = true) :
    ∃ r resp,
      (storyNodes db story).find? (fun n => n.is_root) = some r ∧
      r.is_root = true ∧
      build_complete_story_tree db story = .ok resp ∧
      resp.all_nodes =
        (storyNodes db story).map (fun n => (n.id, toNodeResponse n)) ∧
      resp.root_node = toNodeResponse r ∧
      dictGet resp.all_nodes r.id = some resp.root_node ∧
      resp.id = story.id ∧ resp.title = story.title ∧
      resp.session_id = story.session_id ∧ resp.created_at = story.created_at ∧
      ∀ n ∈ storyNodes db story, n.is_root = true →
        (∀ m ∈ storyNodes db story, m.is_root = true → m = n) →
        dictGet resp.all_nodes n.id = some resp.root_node := by
  obtain ⟨n0, hn0, hr0⟩ := hroot
  have hsome : ((storyNodes db story).find? (fun n => n.is_root)).isSome := by
    rw [List.find?_isSome]
    exact ⟨n0, hn0, by simpa using hr0⟩
  obtain ⟨r, hfind⟩ := Option.isSome_iff_exists.mp hsome
  have hrroot : r.is_root = true := by simpa using List.find?_some hfind
  have hmem : r ∈ storyNodes db story := List.mem_of_find?_eq_some hfind
  refine ⟨r, _, hfind, hrroot, build_tree_ok db story hnodup r hfind,
    rfl, rfl, dictGet_map_of_mem (storyNodes db story) r hmem hnodup,
    rfl, rfl, rfl, rfl, ?_⟩
  intro n hn hnr huniq
  have hrn : r = n := huniq r hmem hrroot
  subst hrn
  exact dictGet_map_of_mem (storyNodes db story) r hmem hnodup

/-- Witness for C7: assembling `storyA` with its unique root and its ending
node yields the full two-entry mapping rooted at `nodeRoot`'s view. -/
theorem assemble_with_root_witness :
    (((storyNodes dbOneRoot storyA).map (fun n => n.id)).Nodup ∧
        ∃ n ∈ storyNodes dbOneRoot storyA, n.is_root = true) ∧
      ∃ r resp,
        (storyNodes dbOneRoot storyA).find? (fun n => n.is_root) = some r ∧
        r.is_root = true ∧
        build_complete_story_tree dbOneRoot storyA = .ok resp ∧
        resp.all_nodes =
          (storyNodes dbOneRoot storyA).map (fun n => (n.id, toNodeResponse n)) ∧
        resp.root_node = toNodeResponse r ∧
        dictGet resp.all_nodes r.id = some resp.root_node ∧
        resp.id = storyA.id ∧ resp.title = storyA.title ∧
        resp.session_id = storyA.session_id ∧ resp.created_at = storyA.created_at ∧
        ∀ n ∈ storyNodes dbOneRoot storyA, n.is_root = true →
          (∀ m ∈ storyNodes dbOneRoot storyA, m.is_root = true → m = n) →
          dictGet resp.all_nodes n.id = some resp.root_node :=
  ⟨⟨by decide, by decide⟩,
   assemble_with_root dbOneRoot storyA (by decide) (by decide)⟩

/-- C10.  When more than one persisted node is root-flagged, assembly does not
fail: it succeeds and returns as root the view of the first root-flagged node
in query order, ignoring the uniqueness violation. -/
theorem assemble_multiple_roots (db : DB) (story : Story)
    (hnodup : ((storyNodes db story).map (fun n => n.id)).Nodup)
    (r : StoryNode)
    (hfind : (storyNodes db story).find? (fun n => n.is_root) = some r)
    (_hmulti : 2 ≤ ((storyNodes db story).filter (fun n => n.is_root)).length) :
    ∃ resp, build_complete_story_tree db story = .ok resp ∧
      resp.root_node = toNodeResponse r := by
  exact ⟨_, build_tree_ok db story hnodup r hfind, rfl⟩

/-- Witness for C10: `storyA` persisted with two root-flagged nodes assembles
successfully, rooted at the first of them. -/
theorem assemble_multiple_roots_witness :
    2 ≤ ((storyNodes dbTwoRoots storyA).filter (fun n => n.is_root)).length ∧
      ∃ resp, build_complete_story_tree dbTwoRoots storyA = .ok resp ∧
        resp.root_node = toNodeResponse nodeRoot :=
  ⟨by decide,
   assemble_multiple_roots dbTwoRoots storyA (by decide) nodeRoot (by decide)
     (by decide)⟩

end Adventure
